import Mathlib

/-!
Verification development for the mpris-rs MPRIS D-Bus client.

The definitions below are a shallow embedding of the repository's source
(src/lib.rs, src/client.rs, src/errors.rs).  Transport effects (the live
D-Bus connection) are passed in explicitly as values or functions, so every
definition is executable.  Rust `Result<T>` becomes `Except ErrorKind T`,
`Option<T>` becomes `Option T`, and D-Bus wire values (`dbus::arg::RefArg`)
become the inductive `WireValue`.
-/

set_option maxHeartbeats 1000000

namespace Mpris

/-- A transport-level D-Bus error (`dbus::Error`): an optional error name and
an optional human-readable message. -/
structure DBusError where
  name : Option String
  message : Option String
deriving Repr, DecidableEq

/-- The error kinds of `src/errors.rs` (`error_chain!`).  `Msg` is the kind
`error_chain` produces from a bare string (`bail!("...")` or
`chain_err(|| "...")`); `DBus` is the foreign-linked `dbus::Error`. -/
inductive ErrorKind where
  | Msg (msg : String)
  | DBus (e : DBusError)
  | GeneralError (msg : String)
  | AccessedAbsentOptionalProperty (obj_path : String) (member : String)
  | TypeBuildError (fromTy : String) (toVal : String)
  | TypeCastError (fromVal : String) (toTy : String)
  | ServiceUnknown (bus_name : String)
deriving Repr, DecidableEq

/-- Does the character list `t` start with the pattern `p`? -/
def charsStartWith : List Char → List Char → Bool
  | [], _ => true
  | _ :: _, [] => false
  | a :: as, b :: bs => a == b && charsStartWith as bs

/-- Does the character list `t` contain the pattern `p` as a contiguous run? -/
def charsContain (p : List Char) : List Char → Bool
  | [] => p.isEmpty
  | b :: bs => charsStartWith p (b :: bs) || charsContain p bs

/-- `s.contains(pat)` on Rust string slices: substring containment. -/
def strContainsPat (s pat : String) : Bool :=
  charsContain pat.data s.data

/-- `errors::match_dbus_err`: true iff the error has a name and that name
contains `matchErrName` as a substring. -/
def match_dbus_err (err : DBusError) (matchErrName : String) : Bool :=
  match err.name with
  | some name => strContainsPat name matchErrName
  | none => false

/-- A self-describing D-Bus wire value (`dbus::arg::RefArg` /
`dbus::MessageItem`).  `double` carries the `f64` payload as an opaque bit
pattern (no claim computes with floating point).  Entries of a `dict` hold
the value inside the wire-level variant wrapper, mirroring how the source
unwraps `Variant<Box<RefArg>>` before use. -/
inductive WireValue where
  | bool (b : Bool)
  | byte (n : Nat)
  | int16 (i : Int)
  | uint16 (n : Nat)
  | int32 (i : Int)
  | uint32 (n : Nat)
  | int64 (i : Int)
  | uint64 (n : Nat)
  | double (bits : Nat)
  | string (s : String)
  | objectPath (s : String)
  | array (xs : List WireValue)
  | dict (entries : List (String × WireValue))

namespace WireValue

/-- `RefArg::as_str`: succeeds for string-like wire values (plain strings and
object paths). -/
def as_str : WireValue → Option String
  | .string s => some s
  | .objectPath s => some s
  | _ => none

/-- `RefArg::as_u64`: succeeds for the unsigned integer wire types. -/
def as_u64 : WireValue → Option Nat
  | .byte n => some n
  | .uint16 n => some n
  | .uint32 n => some n
  | .uint64 n => some n
  | _ => none

/-- `dbus::arg::cast::<bool>`: exact runtime-type downcast. -/
def castBool : WireValue → Option Bool
  | .bool b => some b
  | _ => none

/-- `dbus::arg::cast::<String>`: exact runtime-type downcast (an object path
is not a `String`). -/
def castString : WireValue → Option String
  | .string s => some s
  | _ => none

/-- `dbus::arg::cast::<f64>`: exact runtime-type downcast; the payload is the
opaque bit pattern. -/
def castF64 : WireValue → Option Nat
  | .double bits => some bits
  | _ => none

/-- `dbus::arg::cast::<Vec<String>>`: succeeds for an array whose elements
are all plain strings. -/
def castVecString : WireValue → Option (List String)
  | .array xs => xs.mapM castString
  | _ => none

/-- `dbus::arg::cast_mut::<HashMap<String, Variant<Box<RefArg>>>>` followed by
the per-entry variant unwrap of `ChangedProperty::from_variant`'s `Metadata`
arm: succeeds exactly on a named map. -/
def castDict : WireValue → Option (List (String × WireValue))
  | .dict es => some es
  | _ => none

/-- Stand-in for Rust's `format!("{:?}", ...)` rendering of a wire value.
The rendered text is purely diagnostic (the spec forbids parsing it), so the
model does not reproduce `derive(Debug)`'s exact output; composite values are
rendered without their contents. -/
def debugStr : WireValue → String
  | .bool b => toString b
  | .byte n => toString n
  | .int16 i => toString i
  | .uint16 n => toString n
  | .int32 i => toString i
  | .uint32 n => toString n
  | .int64 i => toString i
  | .uint64 n => toString n
  | .double bits => "f64(" ++ toString bits ++ ")"
  | .string s => s
  | .objectPath s => s
  | .array _ => "Array"
  | .dict _ => "Dict"

end WireValue

/-- A character allowed inside a D-Bus object-path element:
`[A-Za-z0-9_]` (the grammar enforced by `dbus::Path::new`). -/
def isPathElemChar (c : Char) : Bool :=
  c.isAlphanum || c == '_'

/-- Scans the characters of an object path after the leading slash.
`prevSlash` records whether the previous character was a slash (so an empty
element or a trailing slash is rejected). -/
def pathCharsOk : List Char → Bool → Bool
  | [], prevSlash => !prevSlash
  | '/' :: cs, prevSlash => !prevSlash && pathCharsOk cs true
  | c :: cs, _ => isPathElemChar c && pathCharsOk cs false

/-- Validity of a D-Bus object path (`dbus::Path::new(..).is_ok()`): the
string is `/`, or starts with `/` and consists of nonempty `[A-Za-z0-9_]+`
elements separated by single slashes, with no trailing slash. -/
def isValidObjectPath (s : String) : Bool :=
  match s.data with
  | ['/'] => true
  | '/' :: rest => pathCharsOk rest true
  | _ => false

/-- `TrackId` (src/lib.rs): a validated object-path-shaped identifier. -/
structure TrackId where
  track_id : String
deriving Repr, DecidableEq

namespace TrackId

/-- `TrackId::is_no_track`. -/
def is_no_track (t : TrackId) : Bool :=
  t.track_id == "/org/mpris/MediaPlayer2/TrackList/NoTrack"

/-- `<TrackId as FromStr>::from_str`: fails with `TypeBuildError` unless the
string is a valid D-Bus object path. -/
def from_str (track_id : String) : Except ErrorKind TrackId :=
  if isValidObjectPath track_id then
    .ok { track_id := track_id }
  else
    .error (.TypeBuildError "TrackId" track_id)

/-- `<TrackId as AsRef<str>>::as_ref`. -/
def as_ref (t : TrackId) : String :=
  t.track_id

end TrackId

/-- The per-character Unicode default lowercase mapping behind Rust's
`str::to_lowercase` (external standard-library behavior), modelled exactly on
the code points the theorems below evaluate the parsers on: the ASCII range,
where the Unicode mapping coincides with ASCII lowering (`Char.toLower`), and
U+212A KELVIN SIGN, whose Unicode lowercase is `k`.  Characters outside this
modelled domain are carried through unchanged, and no theorem below evaluates
the parsers on them. -/
def rustCharToLower (c : Char) : Char :=
  if c = '\u212A' then 'k' else c.toLower

/-- Rust's `str::to_lowercase`: per-character lowering through
`rustCharToLower`. -/
def rustToLowercase (s : String) : String :=
  ⟨s.data.map rustCharToLower⟩

/-- `PlaybackStatus` (src/lib.rs). -/
inductive PlaybackStatus where
  | Playing
  | Paused
  | Stopped
deriving Repr, DecidableEq

/-- `<PlaybackStatus as FromStr>::from_str`: lowercases, then matches the
three known tags; anything else is a `TypeBuildError`. -/
def PlaybackStatus.from_str (s : String) : Except ErrorKind PlaybackStatus :=
  let l := rustToLowercase s
  if l = "playing" then .ok .Playing
  else if l = "paused" then .ok .Paused
  else if l = "stopped" then .ok .Stopped
  else .error (.TypeBuildError "PlaybackStatus" s)

/-- `LoopStatus` (src/lib.rs). -/
inductive LoopStatus where
  | None
  | Track
  | Playlist
deriving Repr, DecidableEq

/-- `<LoopStatus as FromStr>::from_str`. -/
def LoopStatus.from_str (s : String) : Except ErrorKind LoopStatus :=
  let l := rustToLowercase s
  if l = "none" then .ok .None
  else if l = "track" then .ok .Track
  else if l = "playlist" then .ok .Playlist
  else .error (.TypeBuildError "LoopStatus" s)

/-- `MetadataMap` (src/lib.rs): a mandatory `TrackId` plus the raw named map
of wire values.  The Rust `HashMap<String, Rc<RefArg>>` is modelled as an
association list. -/
structure MetadataMap where
  trackid : TrackId
  raw_map : List (String × WireValue)

namespace MetadataMap

/-- `MetadataMap::from_map`: fails (with the `error_chain` string kinds of
the source) when `mpris:trackid` is absent or not string-shaped, and
propagates `TrackId::from_str`'s `TypeBuildError` when the string is not a
valid object path. -/
def from_map (raw_map : List (String × WireValue)) : Except ErrorKind MetadataMap :=
  match List.lookup "mpris:trackid" raw_map with
  | some track_id =>
    match track_id.as_str with
    | none => .error (.Msg "Could not cast to str.")
    | some track_id_str =>
      match TrackId.from_str track_id_str with
      | .error e => .error e
      | .ok trackid => .ok { trackid := trackid, raw_map := raw_map }
  | none =>
    .error (.Msg "Mandatory 'mpris:trackid' is not present. Could not construct MetadataMap.")

/-- The generic arm of the `mm_getter!` macro:
`Some(cast::<T>(self.raw_map.get(key)?)?.to_owned())`. -/
def mm_get_cast {α : Type} (cast : WireValue → Option α) (m : MetadataMap) (key : String) : Option α :=
  (List.lookup key m.raw_map).bind (fun argref => cast argref)

/-- The `u32` arm of the `mm_getter!` macro:
`Some(self.raw_map.get(key)?.as_u64()? as u32)` — the `as u32` cast reduces
the value modulo `2^32`. -/
def mm_get_u32 (m : MetadataMap) (key : String) : Option Nat :=
  (List.lookup key m.raw_map).bind (fun argref => (argref.as_u64).map (fun n => n % 2 ^ 32))

/-- The `DateTime<FixedOffset>` arm of the `mm_getter!` macro:
`DateTime::parse_from_rfc3339(cast::<String>(self.raw_map.get(key)?)?).ok()`.
`chrono::DateTime::parse_from_rfc3339` is external to the repository, so the
getter is parameterized by it (`parse s = none` models a parse error, which
`.ok()` turns into `None`). -/
def mm_get_date {δ : Type} (parse : String → Option δ) (m : MetadataMap) (key : String) : Option δ :=
  (List.lookup key m.raw_map).bind (fun argref => (argref.castString).bind parse)

/-- `MetadataMap::length` (`mpris:length`, `TimeInUs = f64`). -/
def length (m : MetadataMap) : Option Nat := mm_get_cast WireValue.castF64 m "mpris:length"

/-- `MetadataMap::art_url` (`mpris:artUrl`, `Uri = String`). -/
def art_url (m : MetadataMap) : Option String := mm_get_cast WireValue.castString m "mpris:artUrl"

/-- `MetadataMap::album` (`xesam:album`). -/
def album (m : MetadataMap) : Option String := mm_get_cast WireValue.castString m "xesam:album"

/-- `MetadataMap::album_artist` (`xesam:albumArtist`). -/
def album_artist (m : MetadataMap) : Option (List String) := mm_get_cast WireValue.castVecString m "xesam:albumArtist"

/-- `MetadataMap::artist` (`xesam:artist`). -/
def artist (m : MetadataMap) : Option (List String) := mm_get_cast WireValue.castVecString m "xesam:artist"

/-- `MetadataMap::as_text` (`xesam:asText`). -/
def as_text (m : MetadataMap) : Option String := mm_get_cast WireValue.castString m "xesam:asText"

/-- `MetadataMap::audio_bpm` (`xesam:audioBPM`, u32 arm). -/
def audio_bpm (m : MetadataMap) : Option Nat := mm_get_u32 m "xesam:audioBPM"

/-- `MetadataMap::auto_rating` (`xesam:autoRating`, f64). -/
def auto_rating (m : MetadataMap) : Option Nat := mm_get_cast WireValue.castF64 m "xesam:autoRating"

/-- `MetadataMap::comment` (`xesam:comment`). -/
def comment (m : MetadataMap) : Option (List String) := mm_get_cast WireValue.castVecString m "xesam:comment"

/-- `MetadataMap::composer` (`xesam:composer`). -/
def composer (m : MetadataMap) : Option (List String) := mm_get_cast WireValue.castVecString m "xesam:composer"

/-- `MetadataMap::content_created` (`xesam:contentCreated`, date arm). -/
def content_created {δ : Type} (parse : String → Option δ) (m : MetadataMap) : Option δ :=
  mm_get_date parse m "xesam:contentCreated"

/-- `MetadataMap::disc_number` (`xesam:discNumber`, u32 arm). -/
def disc_number (m : MetadataMap) : Option Nat := mm_get_u32 m "xesam:discNumber"

/-- `MetadataMap::first_used` (`xesam:firstUsed`, date arm). -/
def first_used {δ : Type} (parse : String → Option δ) (m : MetadataMap) : Option δ :=
  mm_get_date parse m "xesam:firstUsed"

/-- `MetadataMap::genre` (`xesam:genre`). -/
def genre (m : MetadataMap) : Option (List String) := mm_get_cast WireValue.castVecString m "xesam:genre"

/-- `MetadataMap::last_used` (`xesam:lastUsed`, date arm). -/
def last_used {δ : Type} (parse : String → Option δ) (m : MetadataMap) : Option δ :=
  mm_get_date parse m "xesam:lastUsed"

/-- `MetadataMap::lyricist` (`xesam:lyricist`). -/
def lyricist (m : MetadataMap) : Option (List String) := mm_get_cast WireValue.castVecString m "xesam:lyricist"

/-- `MetadataMap::title` (`xesam:title`). -/
def title (m : MetadataMap) : Option String := mm_get_cast WireValue.castString m "xesam:title"

/-- `MetadataMap::track_number` (`xesam:trackNumber`, u32 arm). -/
def track_number (m : MetadataMap) : Option Nat := mm_get_u32 m "xesam:trackNumber"

/-- `MetadataMap::url` (`xesam:url`). -/
def url (m : MetadataMap) : Option String := mm_get_cast WireValue.castString m "xesam:url"

/-- `MetadataMap::user_count` (`xesam:userCount`, u32 arm). -/
def user_count (m : MetadataMap) : Option Nat := mm_get_u32 m "xesam:userCount"

/-- `MetadataMap::user_rating` (`xesam:userRating`, f64). -/
def user_rating (m : MetadataMap) : Option Nat := mm_get_cast WireValue.castF64 m "xesam:userRating"

/-- `<MetadataMap as PartialEq>::eq`: equality depends only on the track id. -/
def beq (a b : MetadataMap) : Bool :=
  a.trackid == b.trackid

end MetadataMap

/-- `DBusConn` (src/client.rs): the connection state modelled is the target
well-known bus name, the unique bus name resolved at connection time, and the
timeout; the live transport handle is passed to each operation explicitly. -/
structure DBusConn where
  bus_name : String
  unique_bus_name : String
  timeout : Int

namespace DBusConn

/-- `DBusConn::call_method_without_reply`.  `newMethodCall` is the result of
`Message::new_method_call` (which fails only on syntactically invalid names
and whose string error becomes a `Msg` kind via `?`); `send` is the result
the transport returns for `send_with_reply_and_block`.  A transport error
whose message contains `org.freedesktop.DBus.Error.ServiceUnknown` is
re-raised as `ServiceUnknown(bus_name)`; any other transport error becomes
the `GeneralError` below. -/
def call_method_without_reply (c : DBusConn) (_obj_path _member : String)
    (newMethodCall : Except String Unit) (send : Except DBusError Unit) :
    Except ErrorKind Unit :=
  match newMethodCall with
  | .error s => .error (.Msg s)
  | .ok _ =>
    match send with
    | .error err =>
      if strContainsPat (err.message.getD "") "org.freedesktop.DBus.Error.ServiceUnknown" then
        .error (.ServiceUnknown c.bus_name)
      else
        .error (.GeneralError "Could not call D-Bus method.")
    | .ok _ => .ok ()

/-- `DBusConn::get_prop`: `propGet` is what `Props::get(member)` returns. -/
def get_prop (_c : DBusConn) (_obj_path _member : String)
    (propGet : Except DBusError WireValue) : Except ErrorKind WireValue :=
  match propGet with
  | .ok msg_item => .ok msg_item
  | .error e => .error (.DBus e)

/-- `DBusConn::get_optional_prop`: a transport error whose name contains
`DBus.Error.UnknownProperty` is translated to an absent result; any other
error is propagated (as the foreign-linked `DBus` kind). -/
def get_optional_prop (_c : DBusConn) (_obj_path _member : String)
    (propGet : Except DBusError WireValue) : Except ErrorKind (Option WireValue) :=
  match propGet with
  | .ok msg_item => .ok (some msg_item)
  | .error e =>
    if match_dbus_err e "DBus.Error.UnknownProperty" then .ok none
    else .error (.DBus e)

/-- `DBusConn::set_prop`: a transport error whose name contains
`DBus.Error.UnknownProperty` becomes the distinct
`AccessedAbsentOptionalProperty(path, member)` kind; any other error is
re-raised verbatim. -/
def set_prop (_c : DBusConn) (obj_path member : String) (_value : WireValue)
    (propSet : Except DBusError Unit) : Except ErrorKind Unit :=
  match propSet with
  | .ok _ => .ok ()
  | .error e =>
    if match_dbus_err e "DBus.Error.UnknownProperty" then
      .error (.AccessedAbsentOptionalProperty obj_path member)
    else
      .error (.DBus e)

/-- `DBusConn::new`.  Opening the private session connection and registering
the five match rules (each of which can only fail with a transport error
propagated verbatim) are elided; `getNameOwner` is the transport's reply to
the `GetNameOwner` call on the derived bus name, with the inner `Option`
modelling `read1` (a reply whose first field is not a string yields `none`,
which the source chains to the `Msg` kind).  A failing lookup is reported as
`GeneralError`, not `ServiceUnknown`. -/
def new (player_name : String) (timeout_ms : Int)
    (getNameOwner : String → Except DBusError (Option String)) :
    Except ErrorKind DBusConn :=
  let bus_name := "org.mpris.MediaPlayer2." ++ player_name
  match getNameOwner bus_name with
  | .error _ =>
    .error (.GeneralError "Could not get unique bus name. Does the player exist?")
  | .ok none => .error (.Msg "Could not convert to String")
  | .ok (some unique_name) =>
    .ok { bus_name := bus_name, unique_bus_name := unique_name, timeout := timeout_ms }

end DBusConn

/-- The typed value decoded out of a single changed-property entry
(`ChangedProperty`, src/client.rs). -/
inductive ChangedProperty where
  | CanQuit (b : Bool)
  | Fullscreen (b : Bool)
  | CanSetFullscreen (b : Bool)
  | CanRaise (b : Bool)
  | HasTrackList (b : Bool)
  | Identity (s : String)
  | DesktopEntry (s : String)
  | SupportedUriSchemes (xs : List String)
  | SupportedMimeTypes (xs : List String)
  | PlaybackStatus (ps : PlaybackStatus)
  | LoopStatus (ls : LoopStatus)
  | Rate (bits : Nat)
  | Shuffle (b : Bool)
  | Metadata (m : MetadataMap)
  | Volume (bits : Nat)
  | MinimumRate (bits : Nat)
  | MaximumRate (bits : Nat)
  | CanGoNext (b : Bool)
  | CanGoPrevious (b : Bool)
  | CanPlay (b : Bool)
  | CanPause (b : Bool)
  | CanSeek (b : Bool)
  | Tracks
  | CanEditTracks (b : Bool)
  | Other (s : String)

/-- `cast_var::<T>` (src/client.rs): exact downcast of the variant's inner
value, failing with `TypeCastError(debug, "T")` — the source's
`stringify!(T)` renders the literal type-parameter token `T`. -/
def cast_var {α : Type} (cast : WireValue → Option α) (var : WireValue) : Except ErrorKind α :=
  match cast var with
  | some a => .ok a
  | none => .error (.TypeCastError var.debugStr "T")

/-- `cast_var_to_str` (src/client.rs): `as_str` on the inner value, failing
with `TypeCastError(debug, "&str")`. -/
def cast_var_to_str (var : WireValue) : Except ErrorKind String :=
  match var.as_str with
  | some s => .ok s
  | none => .error (.TypeCastError var.debugStr "&str")

/-- The fixed table of property names `ChangedProperty::from_variant`
dispatches on. -/
def knownPropNames : List String :=
  ["CanQuit", "Fullscreen", "CanSetFullscreen", "CanRaise", "HasTrackList",
   "Identity", "DesktopEntry", "SupportedUriSchemes", "SupportedMimeTypes",
   "PlaybackStatus", "LoopStatus", "Rate", "Shuffle", "Metadata", "Volume",
   "MinimumRate", "MaximumRate", "CanGoNext", "CanGoPrevious", "CanPlay",
   "CanPause", "CanSeek", "Tracks", "CanEditTracks"]

/-- `ChangedProperty::from_variant` (src/client.rs): dispatches on the
property name; known names decode through the exact casts (enum-valued
properties additionally parse through their `from_str`, `Metadata`
recursively builds a `MetadataMap`, propagating its error); every unknown
name succeeds with `Other` carrying the debug rendering of the value. -/
def ChangedProperty.from_variant (name : String) (data : WireValue) :
    Except ErrorKind ChangedProperty :=
  if name = "CanQuit" then (cast_var WireValue.castBool data).map .CanQuit
  else if name = "Fullscreen" then (cast_var WireValue.castBool data).map .Fullscreen
  else if name = "CanSetFullscreen" then (cast_var WireValue.castBool data).map .CanSetFullscreen
  else if name = "CanRaise" then (cast_var WireValue.castBool data).map .CanRaise
  else if name = "HasTrackList" then (cast_var WireValue.castBool data).map .HasTrackList
  else if name = "Identity" then (cast_var_to_str data).map .Identity
  else if name = "DesktopEntry" then (cast_var_to_str data).map .DesktopEntry
  else if name = "SupportedUriSchemes" then (cast_var WireValue.castVecString data).map .SupportedUriSchemes
  else if name = "SupportedMimeTypes" then (cast_var WireValue.castVecString data).map .SupportedMimeTypes
  else if name = "PlaybackStatus" then
    (cast_var_to_str data).bind (fun s => (PlaybackStatus.from_str s).map .PlaybackStatus)
  else if name = "LoopStatus" then
    (cast_var_to_str data).bind (fun s => (LoopStatus.from_str s).map .LoopStatus)
  else if name = "Rate" then (cast_var WireValue.castF64 data).map .Rate
  else if name = "Shuffle" then (cast_var WireValue.castBool data).map .Shuffle
  else if name = "Metadata" then
    match WireValue.castDict data with
    | some raw_map => (MetadataMap.from_map raw_map).map .Metadata
    | none => .error (.TypeCastError data.debugStr "HashMap")
  else if name = "Volume" then (cast_var WireValue.castF64 data).map .Volume
  else if name = "MinimumRate" then (cast_var WireValue.castF64 data).map .MinimumRate
  else if name = "MaximumRate" then (cast_var WireValue.castF64 data).map .MaximumRate
  else if name = "CanGoNext" then (cast_var WireValue.castBool data).map .CanGoNext
  else if name = "CanGoPrevious" then (cast_var WireValue.castBool data).map .CanGoPrevious
  else if name = "CanPlay" then (cast_var WireValue.castBool data).map .CanPlay
  else if name = "CanPause" then (cast_var WireValue.castBool data).map .CanPause
  else if name = "CanSeek" then (cast_var WireValue.castBool data).map .CanSeek
  else if name = "Tracks" then .ok .Tracks
  else if name = "CanEditTracks" then (cast_var WireValue.castBool data).map .CanEditTracks
  else .ok (.Other data.debugStr)

/-- The kind of a D-Bus message (`dbus::MessageType`). -/
inductive MessageType where
  | methodCall
  | methodReturn
  | errorReply
  | signal
deriving Repr, DecidableEq

/-- An inbound D-Bus message as the client observes it: kind, sender, the
header triple, and the positional payload. -/
structure Message where
  msgType : MessageType
  sender : Option String
  path : Option String
  interface : Option String
  member : Option String
  body : List WireValue

/-- `msg.get::<String>` on one positional payload field: reads a plain
string. -/
def readString : WireValue → Option String
  | .string s => some s
  | _ => none

/-- `msg.get::<HashMap<String, Variant<Box<RefArg>>>>` on one positional
payload field: reads a named map. -/
def readDict : WireValue → Option (List (String × WireValue))
  | .dict es => some es
  | _ => none

/-- `msg.get::<Vec<String>>` on one positional payload field: reads an array
of strings. -/
def readStringList : WireValue → Option (List String)
  | .array xs => xs.mapM readString
  | _ => none

/-- `msg.get::<i64>` on one positional payload field. -/
def readI64 : WireValue → Option Int
  | .int64 i => some i
  | _ => none

/-- `MprisSignal` (src/client.rs). -/
inductive MprisSignal where
  | Seeked (position : Int)
  | PropertiesChanged (interface : String)
      (changed_properties : List ChangedProperty)
      (invalidated_properties : List String)

/-- `MprisSignal::from_message` (src/client.rs): a total filter over
messages.  Requires the signal kind and a fully-present header triple,
matches the triple against the two known signatures, reads the positional
payload (`get3` for `PropertiesChanged`, `get1` for `Seeked`), and decodes
the changed-values map entry-by-entry, dropping any entry whose decode
fails. -/
def MprisSignal.from_message (msg : Message) : Option MprisSignal :=
  match msg.msgType, msg.path, msg.interface, msg.member with
  | .signal, some _path, some _interface, some _member =>
    if _path = "/org/mpris/MediaPlayer2" ∧ _interface = "org.freedesktop.DBus.Properties"
        ∧ _member = "PropertiesChanged" then
      match msg.body with
      | b0 :: b1 :: b2 :: _ =>
        match readString b0, readDict b1, readStringList b2 with
        | some interface, some ch_props, some invalidated_properties =>
          let changed_properties := ch_props.filterMap
            (fun nv => (ChangedProperty.from_variant nv.1 nv.2).toOption)
          some (.PropertiesChanged interface changed_properties invalidated_properties)
        | _, _, _ => none
      | _ => none
    else if _path = "/org/mpris/MediaPlayer2" ∧ _interface = "org.mpris.MediaPlayer2.Player"
        ∧ _member = "Seeked" then
      match msg.body with
      | b0 :: _ =>
        match readI64 b0 with
        | some pos => some (.Seeked pos)
        | none => none
      | _ => none
    else none
  | _, _, _, _ => none

/-- The sender filter of `MprisSignals::next`: keeps a message only when its
sender is present and equals the connection's resolved unique bus name or its
well-known bus name. -/
def senderMatches (c : DBusConn) (msg : Message) : Bool :=
  match msg.sender with
  | some msg_str => msg_str == c.unique_bus_name || msg_str == c.bus_name
  | none => false

/-- `MprisSignals` (src/client.rs): the blocking pull-based signal iterator. -/
structure MprisSignals where
  dbus_conn : DBusConn
  timeout_ms : Nat

/-- `<MprisSignals as Iterator>::next`: `incoming` is the sequence of
messages the transport delivers during this pull; the result is the first
message that passes the sender filter and decodes to a signal. -/
def MprisSignals.next (it : MprisSignals) (incoming : List Message) : Option MprisSignal :=
  (((incoming.filter (fun msg => senderMatches it.dbus_conn msg)).filterMap
      (fun msg => MprisSignal.from_message msg)).head?)

/-- `MprisClient` (src/client.rs); the facade's `MprisRoot` shares the same
reference-counted connection, so only the connection is modelled. -/
structure MprisClient where
  dbus_conn : DBusConn

/-- `MprisClient::new`: propagates `DBusConn::new`'s result. -/
def MprisClient.new (player_name : String) (timeout_ms : Int)
    (getNameOwner : String → Except DBusError (Option String)) :
    Except ErrorKind MprisClient :=
  match DBusConn.new player_name timeout_ms getNameOwner with
  | .error e => .error e
  | .ok dbus_conn => .ok { dbus_conn := dbus_conn }

/-- Pointwise case-insensitive (ASCII) character-list comparison: the two
lists have the same length and corresponding characters agree up to
letter-casing. -/
def charsCaseVariant : List Char → List Char → Bool
  | [], [] => true
  | a :: as, b :: bs => (a.toLower == b.toLower) && charsCaseVariant as bs
  | _, _ => false

/-- `s` is a letter-casing variant of `t`: same length, corresponding
characters equal up to ASCII case. -/
def caseVariant (s t : String) : Bool :=
  charsCaseVariant s.data t.data

theorem charsCaseVariant_iff_map : ∀ (bs : List Char), (∀ b ∈ bs, b.toLower = b) →
    ∀ as, charsCaseVariant as bs = true ↔ as.map Char.toLower = bs := by
  intro bs
  induction bs with
  | nil =>
    intro _ as
    cases as <;> simp [charsCaseVariant]
  | cons b bs ih =>
    intro hbs as
    cases as with
    | nil => simp [charsCaseVariant]
    | cons a as =>
      have hb : b.toLower = b := hbs b (by simp)
      have ih' := ih (fun x hx => hbs x (by simp [hx])) as
      simp only [charsCaseVariant, Bool.and_eq_true, beq_iff_eq, hb, ih',
        List.map_cons, List.cons.injEq]

theorem rustCharToLower_ascii (c : Char) (h : c.toNat < 128) :
    rustCharToLower c = c.toLower := by
  unfold rustCharToLower
  rw [if_neg]
  intro hc
  subst hc
  exact absurd h (by decide)

theorem rustToLowercase_ascii (s : String) (h : ∀ c ∈ s.data, c.toNat < 128) :
    rustToLowercase s = ⟨s.data.map Char.toLower⟩ := by
  unfold rustToLowercase
  have hmap : s.data.map rustCharToLower = s.data.map Char.toLower :=
    List.map_congr_left (fun c hc => rustCharToLower_ascii c (h c hc))
  rw [hmap]

theorem charsCaseVariant_map_rust : ∀ (bs : List Char),
    (∀ b ∈ bs, b.toLower = b ∧ b.toNat < 128) →
    ∀ as, charsCaseVariant as bs = true → as.map rustCharToLower = bs := by
  intro bs
  induction bs with
  | nil =>
    intro _ as h
    cases as with
    | nil => rfl
    | cons a as => simp [charsCaseVariant] at h
  | cons b bs ih =>
    intro hbs as h
    cases as with
    | nil => simp [charsCaseVariant] at h
    | cons a as =>
      obtain ⟨hb1, hb2⟩ := hbs b (by simp)
      simp only [charsCaseVariant, Bool.and_eq_true, beq_iff_eq] at h
      obtain ⟨hab, htail⟩ := h
      rw [hb1] at hab
      have htail' := ih (fun x hx => hbs x (by simp [hx])) as htail
      simp only [List.map_cons, htail', List.cons.injEq, and_true]
      by_cases ha : a = '\u212A'
      · subst ha
        rw [show Char.toLower '\u212A' = '\u212A' from rfl] at hab
        rw [← hab] at hb2
        exact absurd hb2 (by decide)
      · unfold rustCharToLower
        rw [if_neg ha]
        exact hab

theorem caseVariant_rustToLowercase (s t : String)
    (ht : ∀ b ∈ t.data, b.toLower = b ∧ b.toNat < 128) :
    caseVariant s t = true → rustToLowercase s = t := by
  intro h
  unfold rustToLowercase
  have hmap := charsCaseVariant_map_rust t.data ht s.data h
  obtain ⟨td⟩ := t
  simp only at hmap
  rw [hmap]

theorem caseVariant_iff_lower_ascii (s t : String) (hs : ∀ c ∈ s.data, c.toNat < 128)
    (ht : ∀ b ∈ t.data, b.toLower = b) :
    caseVariant s t = true ↔ rustToLowercase s = t := by
  rw [rustToLowercase_ascii s hs]
  unfold caseVariant
  rw [charsCaseVariant_iff_map t.data ht s.data]
  obtain ⟨td⟩ := t
  simp [String.ext_iff]

end Mpris

namespace Mpris

/-- C9: for every valid D-Bus object-path string, `TrackId::from_str`
succeeds and the resulting id's string view equals the input; for every
non-path-shaped string it fails with the `TypeBuildError` kind. -/
theorem c9_trackid_parse_roundtrip (s : String) :
    (isValidObjectPath s = true →
      TrackId.from_str s = .ok { track_id := s } ∧
      TrackId.as_ref { track_id := s } = s)
    ∧ (isValidObjectPath s = false →
      TrackId.from_str s = .error (.TypeBuildError "TrackId" s)) := by
  constructor
  · intro h
    simp [TrackId.from_str, h, TrackId.as_ref]
  · intro h
    simp [TrackId.from_str, h]

/-- Witness for C9 at the concrete path `/foo/bar/baz` (succeeds and
round-trips) and the concrete non-path `not a path` (fails with
`TypeBuildError`). -/
theorem c9_trackid_parse_roundtrip_witness :
    (isValidObjectPath "/foo/bar/baz" = true ∧
      TrackId.from_str "/foo/bar/baz" = .ok { track_id := "/foo/bar/baz" } ∧
      TrackId.as_ref { track_id := "/foo/bar/baz" } = "/foo/bar/baz") ∧
    (isValidObjectPath "not a path" = false ∧
      TrackId.from_str "not a path" = .error (.TypeBuildError "TrackId" "not a path")) :=
  ⟨⟨by decide, (c9_trackid_parse_roundtrip "/foo/bar/baz").1 (by decide)⟩,
   ⟨by decide, (c9_trackid_parse_roundtrip "not a path").2 (by decide)⟩⟩

/-- C5: when the transport reports an unknown-property error,
`get_optional_prop` yields an absent result (never an error) and `set_prop`
fails with the distinct `AccessedAbsentOptionalProperty(path, member)` kind;
any other transport error is propagated as an error by both. -/
theorem c5_optional_property_translation (c : DBusConn) (obj_path member : String)
    (e : DBusError) (v : WireValue) :
    (match_dbus_err e "DBus.Error.UnknownProperty" = true →
      c.get_optional_prop obj_path member (.error e) = .ok none ∧
      c.set_prop obj_path member v (.error e) =
        .error (.AccessedAbsentOptionalProperty obj_path member))
    ∧ (match_dbus_err e "DBus.Error.UnknownProperty" = false →
      c.get_optional_prop obj_path member (.error e) = .error (.DBus e) ∧
      c.set_prop obj_path member v (.error e) = .error (.DBus e)) := by
  constructor <;> intro h <;>
    simp [DBusConn.get_optional_prop, DBusConn.set_prop, h]

/-- Witness for C5 at a concrete unknown-property transport error and a
concrete unrelated transport error. -/
theorem c5_optional_property_translation_witness :
    (DBusConn.get_optional_prop ⟨"org.mpris.MediaPlayer2.vlc", ":1.5", 1000⟩
        "/org/mpris/MediaPlayer2" "Fullscreen"
        (.error ⟨some "org.freedesktop.DBus.Error.UnknownProperty", none⟩) = .ok none ∧
      DBusConn.set_prop ⟨"org.mpris.MediaPlayer2.vlc", ":1.5", 1000⟩
        "/org/mpris/MediaPlayer2" "Fullscreen" (.bool true)
        (.error ⟨some "org.freedesktop.DBus.Error.UnknownProperty", none⟩) =
        .error (.AccessedAbsentOptionalProperty "/org/mpris/MediaPlayer2" "Fullscreen")) ∧
    (DBusConn.get_optional_prop ⟨"org.mpris.MediaPlayer2.vlc", ":1.5", 1000⟩
        "/org/mpris/MediaPlayer2" "Fullscreen"
        (.error ⟨some "org.freedesktop.DBus.Error.Failed", none⟩) =
        .error (.DBus ⟨some "org.freedesktop.DBus.Error.Failed", none⟩) ∧
      DBusConn.set_prop ⟨"org.mpris.MediaPlayer2.vlc", ":1.5", 1000⟩
        "/org/mpris/MediaPlayer2" "Fullscreen" (.bool true)
        (.error ⟨some "org.freedesktop.DBus.Error.Failed", none⟩) =
        .error (.DBus ⟨some "org.freedesktop.DBus.Error.Failed", none⟩)) :=
  ⟨(c5_optional_property_translation ⟨"org.mpris.MediaPlayer2.vlc", ":1.5", 1000⟩
      "/org/mpris/MediaPlayer2" "Fullscreen"
      ⟨some "org.freedesktop.DBus.Error.UnknownProperty", none⟩ (.bool true)).1 (by rfl),
   (c5_optional_property_translation ⟨"org.mpris.MediaPlayer2.vlc", ":1.5", 1000⟩
      "/org/mpris/MediaPlayer2" "Fullscreen"
      ⟨some "org.freedesktop.DBus.Error.Failed", none⟩ (.bool true)).2 (by rfl)⟩

/-- C6: `ChangedProperty::from_variant` maps the name `CanQuit` with wire
boolean `true` to `CanQuit(true)`, and every name outside the fixed table of
known property names succeeds with `Other` (carrying the debug rendering of
the value) for every wire value. -/
theorem c6_changed_property_dispatch :
    ChangedProperty.from_variant "CanQuit" (.bool true) = .ok (.CanQuit true)
    ∧ ∀ (name : String) (v : WireValue), name ∉ knownPropNames →
        ChangedProperty.from_variant name v = .ok (.Other v.debugStr) := by
  constructor
  · rfl
  · intro name v h
    simp only [knownPropNames, List.mem_cons, List.not_mem_nil, or_false, not_or] at h
    obtain ⟨h1, h2, h3, h4, h5, h6, h7, h8, h9, h10, h11, h12, h13, h14, h15, h16, h17, h18,
      h19, h20, h21, h22, h23, h24⟩ := h
    simp [ChangedProperty.from_variant, h1, h2, h3, h4, h5, h6, h7, h8, h9, h10, h11, h12,
      h13, h14, h15, h16, h17, h18, h19, h20, h21, h22, h23, h24]

/-- Witness for C6 at the concrete unknown name `Unrecognized` with wire
boolean `true`. -/
theorem c6_changed_property_dispatch_witness :
    ChangedProperty.from_variant "Unrecognized" (.bool true) =
      .ok (.Other (WireValue.bool true).debugStr) :=
  c6_changed_property_dispatch.2 "Unrecognized" (.bool true) (by decide)

/-- C10 (implicit): the count-valued accessors accept any wire value whose
`as_u64` succeeds (not only exactly-u32-typed values) and return the value
reduced modulo `2^32`. -/
theorem c10_count_getters_truncate (m : MetadataMap) (v : WireValue) (n : Nat) :
    (List.lookup "xesam:audioBPM" m.raw_map = some v → v.as_u64 = some n →
      m.audio_bpm = some (n % 2 ^ 32))
    ∧ (List.lookup "xesam:discNumber" m.raw_map = some v → v.as_u64 = some n →
      m.disc_number = some (n % 2 ^ 32))
    ∧ (List.lookup "xesam:trackNumber" m.raw_map = some v → v.as_u64 = some n →
      m.track_number = some (n % 2 ^ 32))
    ∧ (List.lookup "xesam:userCount" m.raw_map = some v → v.as_u64 = some n →
      m.user_count = some (n % 2 ^ 32)) := by
  refine ⟨fun h1 h2 => ?_, fun h1 h2 => ?_, fun h1 h2 => ?_, fun h1 h2 => ?_⟩ <;>
    simp [MetadataMap.audio_bpm, MetadataMap.disc_number, MetadataMap.track_number,
      MetadataMap.user_count, MetadataMap.mm_get_u32, h1, h2]

/-- Witness for C10: a `u64`-typed wire value above `u32::MAX` is accepted by
`audio_bpm` and truncated (to 5), not rejected. -/
theorem c10_count_getters_truncate_witness :
    MetadataMap.audio_bpm ⟨⟨"/t"⟩, [("xesam:audioBPM", WireValue.uint64 (2 ^ 32 + 5))]⟩ =
      some ((2 ^ 32 + 5) % 2 ^ 32) ∧ (2 ^ 32 + 5) % 2 ^ 32 = 5 :=
  ⟨(c10_count_getters_truncate ⟨⟨"/t"⟩, [("xesam:audioBPM", WireValue.uint64 (2 ^ 32 + 5))]⟩
      (WireValue.uint64 (2 ^ 32 + 5)) (2 ^ 32 + 5)).1 rfl rfl, by norm_num⟩

/-- C1 counterexample: connecting to a player whose bus name has no current
owner (the transport's `GetNameOwner` call fails with
`org.freedesktop.DBus.Error.NameHasNoOwner`) does NOT fail with the
`ServiceUnknown` kind as the claim states: `DBusConn::new` chains the
failure to `GeneralError("Could not get unique bus name. Does the player
exist?")` instead (src/client.rs lines 116-117). -/
theorem c1_counterexample_connect_general_error :
    DBusConn.new "vlc" 1000
      (fun _ => .error ⟨some "org.freedesktop.DBus.Error.NameHasNoOwner",
                        some "Could not get owner of name"⟩) =
      .error (.GeneralError "Could not get unique bus name. Does the player exist?") ∧
    DBusConn.new "vlc" 1000
      (fun _ => .error ⟨some "org.freedesktop.DBus.Error.NameHasNoOwner",
                        some "Could not get owner of name"⟩) ≠
      .error (.ServiceUnknown "org.mpris.MediaPlayer2.vlc") := by
  constructor
  · rfl
  · intro h
    rw [show DBusConn.new "vlc" 1000
        (fun _ => .error ⟨some "org.freedesktop.DBus.Error.NameHasNoOwner",
                          some "Could not get owner of name"⟩) =
        (.error (.GeneralError "Could not get unique bus name. Does the player exist?") :
          Except ErrorKind DBusConn) from rfl] at h
    simp at h

/-- C1 amended: a failing name-owner lookup at connection time surfaces as
`GeneralError("Could not get unique bus name. Does the player exist?")`
(through both `DBusConn::new` and `MprisClient::new`), not `ServiceUnknown`;
at call time, a transport error whose message reports
`org.freedesktop.DBus.Error.ServiceUnknown` makes
`call_method_without_reply` fail with `ServiceUnknown` carrying the
connection's bus name, and any other transport error becomes a generic
`GeneralError`. -/
theorem c1_amended_error_kinds (player_name : String) (timeout_ms : Int)
    (getNameOwner : String → Except DBusError (Option String)) (e err : DBusError)
    (c : DBusConn) (obj_path member : String) :
    (getNameOwner ("org.mpris.MediaPlayer2." ++ player_name) = .error e →
      DBusConn.new player_name timeout_ms getNameOwner =
        .error (.GeneralError "Could not get unique bus name. Does the player exist?") ∧
      MprisClient.new player_name timeout_ms getNameOwner =
        .error (.GeneralError "Could not get unique bus name. Does the player exist?"))
    ∧ (strContainsPat (err.message.getD "") "org.freedesktop.DBus.Error.ServiceUnknown" = true →
      c.call_method_without_reply obj_path member (.ok ()) (.error err) =
        .error (.ServiceUnknown c.bus_name))
    ∧ (strContainsPat (err.message.getD "") "org.freedesktop.DBus.Error.ServiceUnknown" = false →
      c.call_method_without_reply obj_path member (.ok ()) (.error err) =
        .error (.GeneralError "Could not call D-Bus method.")) := by
  refine ⟨fun h => ?_, fun h => ?_, fun h => ?_⟩
  · constructor
    · simp [DBusConn.new, h]
    · simp [MprisClient.new, DBusConn.new, h]
  · simp [DBusConn.call_method_without_reply, h]
  · simp [DBusConn.call_method_without_reply, h]

/-- Witness for the amended C1 at concrete inputs: a failing lookup yields
the `GeneralError` kind, a service-unknown transport message yields
`ServiceUnknown` with the bus name, and an unrelated transport error yields
the generic call error. -/
theorem c1_amended_error_kinds_witness :
    (DBusConn.new "vlc" 1000 (fun _ => .error ⟨none, none⟩) =
      .error (.GeneralError "Could not get unique bus name. Does the player exist?")) ∧
    (DBusConn.call_method_without_reply ⟨"org.mpris.MediaPlayer2.vlc", ":1.5", 1000⟩
      "/org/mpris/MediaPlayer2" "Raise" (.ok ())
      (.error ⟨none, some "org.freedesktop.DBus.Error.ServiceUnknown: name lost"⟩) =
      .error (.ServiceUnknown "org.mpris.MediaPlayer2.vlc")) ∧
    (DBusConn.call_method_without_reply ⟨"org.mpris.MediaPlayer2.vlc", ":1.5", 1000⟩
      "/org/mpris/MediaPlayer2" "Raise" (.ok ())
      (.error ⟨none, some "timed out"⟩) =
      .error (.GeneralError "Could not call D-Bus method.")) :=
  ⟨((c1_amended_error_kinds "vlc" 1000 (fun _ => .error ⟨none, none⟩) ⟨none, none⟩
      ⟨none, none⟩ ⟨"org.mpris.MediaPlayer2.vlc", ":1.5", 1000⟩ "/org/mpris/MediaPlayer2"
      "Raise").1 rfl).1,
   (c1_amended_error_kinds "vlc" 1000 (fun _ => .error ⟨none, none⟩) ⟨none, none⟩
      ⟨none, some "org.freedesktop.DBus.Error.ServiceUnknown: name lost"⟩
      ⟨"org.mpris.MediaPlayer2.vlc", ":1.5", 1000⟩ "/org/mpris/MediaPlayer2" "Raise").2.1 rfl,
   (c1_amended_error_kinds "vlc" 1000 (fun _ => .error ⟨none, none⟩) ⟨none, none⟩
      ⟨none, some "timed out"⟩
      ⟨"org.mpris.MediaPlayer2.vlc", ":1.5", 1000⟩ "/org/mpris/MediaPlayer2" "Raise").2.2 rfl⟩

/-- C2 counterexample: a map whose `mpris:trackid` entry is present and
string-shaped (`as_str` succeeds) can still make `MetadataMap::from_map`
fail, because the string `x` is not a valid object path — refuting the
claim's "fails if and only if the key is absent or its value is not
string-shaped". -/
theorem c2_counterexample_from_map_path_check :
    List.lookup "mpris:trackid" [("mpris:trackid", WireValue.string "x")] =
      some (WireValue.string "x") ∧
    (WireValue.string "x").as_str = some "x" ∧
    MetadataMap.from_map [("mpris:trackid", WireValue.string "x")] =
      .error (.TypeBuildError "TrackId" "x") := by
  refine ⟨rfl, rfl, rfl⟩

/-- C2 amended: `MetadataMap::from_map` succeeds iff `mpris:trackid` is
present, string-shaped, and a valid object path (so it still never fails
because any other key is missing); on success the stored trackid's string
view equals the parsed value of that key, and the raw map is stored
unchanged. -/
theorem c2_amended_from_map_success (raw_map : List (String × WireValue)) :
    ((∃ mm, MetadataMap.from_map raw_map = .ok mm) ↔
      ∃ v s, List.lookup "mpris:trackid" raw_map = some v ∧ v.as_str = some s ∧
        isValidObjectPath s = true)
    ∧ (∀ mm v s, MetadataMap.from_map raw_map = .ok mm →
        List.lookup "mpris:trackid" raw_map = some v → v.as_str = some s →
        mm.trackid.as_ref = s ∧ mm.raw_map = raw_map) := by
  rcases hv : List.lookup "mpris:trackid" raw_map with _ | v
  · constructor
    · simp [MetadataMap.from_map, hv]
    · intro mm v s _ hv' _
      simp at hv'
  · rcases hs : v.as_str with _ | s
    · constructor
      · simp [MetadataMap.from_map, hv, hs]
      · intro mm v' s _ hv' hs'
        injection hv' with h1
        subst h1
        rw [hs] at hs'
        simp at hs'
    · by_cases hval : isValidObjectPath s
      · constructor
        · simp only [MetadataMap.from_map, hv, hs, TrackId.from_str, hval, if_true]
          constructor
          · intro _
            exact ⟨v, s, rfl, hs, hval⟩
          · intro _
            exact ⟨_, rfl⟩
        · intro mm v' s' hmm hv' hs'
          injection hv' with h1
          subst h1
          rw [hs] at hs'
          injection hs' with h2
          subst h2
          simp only [MetadataMap.from_map, hv, hs, TrackId.from_str, hval, if_true] at hmm
          injection hmm with h3
          subst h3
          exact ⟨rfl, rfl⟩
      · have hval' : isValidObjectPath s = false := by
          simpa using hval
        constructor
        · simp only [MetadataMap.from_map, hv, hs, TrackId.from_str, hval', Bool.false_eq_true,
            if_false]
          constructor
          · intro ⟨mm, hmm⟩
            exact absurd hmm (by simp)
          · intro ⟨v', s', hv1, hs1, hval1⟩
            injection hv1 with h1
            subst h1
            rw [hs] at hs1
            injection hs1 with h2
            subst h2
            rw [hval'] at hval1
            exact absurd hval1 (by simp)
        · intro mm v' s' hmm _ _
          simp only [MetadataMap.from_map, hv, hs, TrackId.from_str, hval', Bool.false_eq_true,
            if_false] at hmm
          exact absurd hmm (by simp)

/-- Witness for the amended C2: a single-entry map whose trackid is the
object path `/foo/bar/baz` builds successfully, stores that trackid, and
keeps the raw map. -/
theorem c2_amended_from_map_success_witness :
    (∃ mm, MetadataMap.from_map [("mpris:trackid", WireValue.objectPath "/foo/bar/baz")] =
      .ok mm) ∧
    MetadataMap.trackid
      { trackid := ⟨"/foo/bar/baz"⟩,
        raw_map := [("mpris:trackid", WireValue.objectPath "/foo/bar/baz")] } =
      ⟨"/foo/bar/baz"⟩ :=
  ⟨((c2_amended_from_map_success
      [("mpris:trackid", WireValue.objectPath "/foo/bar/baz")]).1).mpr
    ⟨WireValue.objectPath "/foo/bar/baz", "/foo/bar/baz", rfl, rfl, by decide⟩, rfl⟩

/-- C7: every optional per-field accessor returns `None` (and never an
error) when its fixed key is absent or the value has the wrong wire shape;
date-valued accessors additionally return `None` when the string payload
does not parse as RFC 3339.  Stated once for each arm of the `mm_getter!`
macro — every accessor is definitionally an instance of one of the three
arms at its fixed key, as the trailing equations record for the accessors
the claim names. -/
theorem c7_optional_getters_lenient {α δ : Type} (cast : WireValue → Option α)
    (parse : String → Option δ) (m : MetadataMap) (key : String) :
    (List.lookup key m.raw_map = none →
      MetadataMap.mm_get_cast cast m key = none ∧
      MetadataMap.mm_get_u32 m key = none ∧
      MetadataMap.mm_get_date parse m key = none)
    ∧ (∀ v, List.lookup key m.raw_map = some v → cast v = none →
      MetadataMap.mm_get_cast cast m key = none)
    ∧ (∀ v, List.lookup key m.raw_map = some v → v.as_u64 = none →
      MetadataMap.mm_get_u32 m key = none)
    ∧ (∀ v, List.lookup key m.raw_map = some v → v.castString = none →
      MetadataMap.mm_get_date parse m key = none)
    ∧ (∀ v s, List.lookup key m.raw_map = some v → v.castString = some s → parse s = none →
      MetadataMap.mm_get_date parse m key = none)
    ∧ m.length = MetadataMap.mm_get_cast WireValue.castF64 m "mpris:length"
    ∧ m.art_url = MetadataMap.mm_get_cast WireValue.castString m "mpris:artUrl"
    ∧ m.album = MetadataMap.mm_get_cast WireValue.castString m "xesam:album"
    ∧ m.disc_number = MetadataMap.mm_get_u32 m "xesam:discNumber"
    ∧ MetadataMap.content_created parse m =
        MetadataMap.mm_get_date parse m "xesam:contentCreated" := by
  refine ⟨fun h => ?_, fun v h1 h2 => ?_, fun v h1 h2 => ?_, fun v h1 h2 => ?_,
    fun v s h1 h2 h3 => ?_, rfl, rfl, rfl, rfl, rfl⟩ <;>
    simp [MetadataMap.mm_get_cast, MetadataMap.mm_get_u32, MetadataMap.mm_get_date, *]

/-- Witness for C7: a wrong-typed `xesam:album` value and an unparsable
`xesam:contentCreated` string both read back as `None`. -/
theorem c7_optional_getters_lenient_witness :
    MetadataMap.mm_get_cast WireValue.castString
      ⟨⟨"/t"⟩, [("xesam:album", WireValue.uint32 7),
                ("xesam:contentCreated", WireValue.string "nope")]⟩ "xesam:album" = none ∧
    MetadataMap.mm_get_date (fun _ => (none : Option Nat))
      ⟨⟨"/t"⟩, [("xesam:album", WireValue.uint32 7),
                ("xesam:contentCreated", WireValue.string "nope")]⟩
      "xesam:contentCreated" = none :=
  ⟨(c7_optional_getters_lenient WireValue.castString (fun _ => (none : Option Nat))
      ⟨⟨"/t"⟩, [("xesam:album", WireValue.uint32 7),
                ("xesam:contentCreated", WireValue.string "nope")]⟩ "xesam:album").2.1
    (WireValue.uint32 7) rfl rfl,
   (c7_optional_getters_lenient WireValue.castString (fun _ => (none : Option Nat))
      ⟨⟨"/t"⟩, [("xesam:album", WireValue.uint32 7),
                ("xesam:contentCreated", WireValue.string "nope")]⟩
      "xesam:contentCreated").2.2.2.2.1 (WireValue.string "nope") "nope" rfl rfl rfl⟩

/-- C8 counterexample: the five-character string `TRAC` + U+212A KELVIN SIGN
is not a letter-casing variant of `none`, `track` or `playlist`, yet
`LoopStatus::from_str` accepts it as `Track`, because Rust's Unicode
`str::to_lowercase` maps the Kelvin sign to `k` — refuting the claim's
"for every other string it fails with TypeBuildError". -/
theorem c8_counterexample_kelvin_sign :
    caseVariant "TRAC\u212A" "none" = false ∧
    caseVariant "TRAC\u212A" "track" = false ∧
    caseVariant "TRAC\u212A" "playlist" = false ∧
    LoopStatus.from_str "TRAC\u212A" = .ok .Track := by
  refine ⟨by decide, by decide, by decide, rfl⟩

/-- C8 amended: for every letter-casing variant of `playing`, `paused`,
`stopped`, `PlaybackStatus::from_str` returns the matching variant, and
every other string of ASCII characters fails with `TypeBuildError`;
`LoopStatus::from_str` obeys the same discipline for `none`, `track`,
`playlist`.  (For non-ASCII strings the acceptance boundary follows Unicode
lowercasing rather than letter-casing, as the Kelvin-sign counterexample
shows.) -/
theorem c8_amended_status_parse_case (s : String) :
    (caseVariant s "playing" = true → PlaybackStatus.from_str s = .ok .Playing)
    ∧ (caseVariant s "paused" = true → PlaybackStatus.from_str s = .ok .Paused)
    ∧ (caseVariant s "stopped" = true → PlaybackStatus.from_str s = .ok .Stopped)
    ∧ ((∀ c ∈ s.data, c.toNat < 128) →
       caseVariant s "playing" = false → caseVariant s "paused" = false →
       caseVariant s "stopped" = false →
       PlaybackStatus.from_str s = .error (.TypeBuildError "PlaybackStatus" s))
    ∧ (caseVariant s "none" = true → LoopStatus.from_str s = .ok .None)
    ∧ (caseVariant s "track" = true → LoopStatus.from_str s = .ok .Track)
    ∧ (caseVariant s "playlist" = true → LoopStatus.from_str s = .ok .Playlist)
    ∧ ((∀ c ∈ s.data, c.toNat < 128) →
       caseVariant s "none" = false → caseVariant s "track" = false →
       caseVariant s "playlist" = false →
       LoopStatus.from_str s = .error (.TypeBuildError "LoopStatus" s)) := by
  refine ⟨fun h => ?_, fun h => ?_, fun h => ?_, fun hascii h1 h2 h3 => ?_,
    fun h => ?_, fun h => ?_, fun h => ?_, fun hascii h1 h2 h3 => ?_⟩
  · simp [PlaybackStatus.from_str, caseVariant_rustToLowercase s "playing" (by decide) h]
  · have hl := caseVariant_rustToLowercase s "paused" (by decide) h
    have hne : rustToLowercase s ≠ "playing" := by
      rw [hl]; decide
    simp [PlaybackStatus.from_str, hl, hne]
  · have hl := caseVariant_rustToLowercase s "stopped" (by decide) h
    have hne1 : rustToLowercase s ≠ "playing" := by rw [hl]; decide
    have hne2 : rustToLowercase s ≠ "paused" := by rw [hl]; decide
    simp [PlaybackStatus.from_str, hl, hne1, hne2]
  · have hne1 : rustToLowercase s ≠ "playing" := fun hc => by
      rw [(caseVariant_iff_lower_ascii s "playing" hascii (by decide)).mpr hc] at h1
      exact absurd h1 (by simp)
    have hne2 : rustToLowercase s ≠ "paused" := fun hc => by
      rw [(caseVariant_iff_lower_ascii s "paused" hascii (by decide)).mpr hc] at h2
      exact absurd h2 (by simp)
    have hne3 : rustToLowercase s ≠ "stopped" := fun hc => by
      rw [(caseVariant_iff_lower_ascii s "stopped" hascii (by decide)).mpr hc] at h3
      exact absurd h3 (by simp)
    simp [PlaybackStatus.from_str, hne1, hne2, hne3]
  · simp [LoopStatus.from_str, caseVariant_rustToLowercase s "none" (by decide) h]
  · have hl := caseVariant_rustToLowercase s "track" (by decide) h
    have hne : rustToLowercase s ≠ "none" := by
      rw [hl]; decide
    simp [LoopStatus.from_str, hl, hne]
  · have hl := caseVariant_rustToLowercase s "playlist" (by decide) h
    have hne1 : rustToLowercase s ≠ "none" := by rw [hl]; decide
    have hne2 : rustToLowercase s ≠ "track" := by rw [hl]; decide
    simp [LoopStatus.from_str, hl, hne1, hne2]
  · have hne1 : rustToLowercase s ≠ "none" := fun hc => by
      rw [(caseVariant_iff_lower_ascii s "none" hascii (by decide)).mpr hc] at h1
      exact absurd h1 (by simp)
    have hne2 : rustToLowercase s ≠ "track" := fun hc => by
      rw [(caseVariant_iff_lower_ascii s "track" hascii (by decide)).mpr hc] at h2
      exact absurd h2 (by simp)
    have hne3 : rustToLowercase s ≠ "playlist" := fun hc => by
      rw [(caseVariant_iff_lower_ascii s "playlist" hascii (by decide)).mpr hc] at h3
      exact absurd h3 (by simp)
    simp [LoopStatus.from_str, hne1, hne2, hne3]

theorem readString_mapM_loop (inval : List String) :
    ∀ acc : List String,
      List.mapM.loop readString (inval.map WireValue.string) acc =
        some (acc.reverse ++ inval) := by
  induction inval with
  | nil => intro acc; simp [List.mapM.loop]
  | cons x xs ih =>
    intro acc
    simp [List.mapM.loop, readString, ih (x :: acc)]

theorem readStringList_map_string (inval : List String) :
    readStringList (.array (inval.map WireValue.string)) = some inval := by
  simp [readStringList, List.mapM, readString_mapM_loop inval []]

/-- C3: decoding a `PropertiesChanged` signal message reads the three
positional payload fields and keeps exactly the changed-map entries whose
individual decode succeeds — a failing entry is dropped without discarding
the signal; concretely, the `Shuffle: true` payload decodes to exactly one
`ChangedProperty::Shuffle(true)` with an empty invalidated list, also in the
presence of an undecodable sibling entry. -/
theorem c3_properties_changed_decode (sender : Option String) (iface : String)
    (entries : List (String × WireValue)) (inval : List String) (rest : List WireValue) :
    MprisSignal.from_message
      { msgType := .signal, sender := sender, path := some "/org/mpris/MediaPlayer2",
        interface := some "org.freedesktop.DBus.Properties",
        member := some "PropertiesChanged",
        body := .string iface :: .dict entries :: .array (inval.map WireValue.string) :: rest } =
      some (.PropertiesChanged iface
        (entries.filterMap (fun nv => (ChangedProperty.from_variant nv.1 nv.2).toOption))
        inval)
    ∧ MprisSignal.from_message
      { msgType := .signal, sender := some ":1.5", path := some "/org/mpris/MediaPlayer2",
        interface := some "org.freedesktop.DBus.Properties",
        member := some "PropertiesChanged",
        body := [.string "org.mpris.MediaPlayer2.Player",
                 .dict [("Shuffle", .bool true)], .array []] } =
      some (.PropertiesChanged "org.mpris.MediaPlayer2.Player" [.Shuffle true] [])
    ∧ MprisSignal.from_message
      { msgType := .signal, sender := some ":1.5", path := some "/org/mpris/MediaPlayer2",
        interface := some "org.freedesktop.DBus.Properties",
        member := some "PropertiesChanged",
        body := [.string "org.mpris.MediaPlayer2.Player",
                 .dict [("Shuffle", .bool true), ("CanQuit", .string "oops")], .array []] } =
      some (.PropertiesChanged "org.mpris.MediaPlayer2.Player" [.Shuffle true] []) := by
  refine ⟨?_, rfl, rfl⟩
  simp [MprisSignal.from_message, readString, readDict, readStringList_map_string]

/-- C4: every signal yielded by a pull of `MprisSignals::next` originates
from an inbound message whose sender equals the connection's well-known or
resolved unique bus name, and a pull whose inbound messages all fail the
sender check yields nothing. -/
theorem c4_sender_filter (it : MprisSignals) (incoming : List Message) (sig : MprisSignal) :
    (it.next incoming = some sig →
      ∃ msg, msg ∈ incoming ∧ senderMatches it.dbus_conn msg = true ∧
        MprisSignal.from_message msg = some sig)
    ∧ ((∀ msg ∈ incoming, senderMatches it.dbus_conn msg = false) →
      it.next incoming = none) := by
  constructor
  · intro h
    unfold MprisSignals.next at h
    rcases hfm : (incoming.filter (fun msg => senderMatches it.dbus_conn msg)).filterMap
        (fun msg => MprisSignal.from_message msg) with _ | ⟨x, xs⟩
    · rw [hfm] at h
      simp at h
    · rw [hfm] at h
      simp only [List.head?_cons] at h
      injection h with hxs
      have hx : sig ∈ (incoming.filter (fun msg => senderMatches it.dbus_conn msg)).filterMap
          (fun msg => MprisSignal.from_message msg) := by
        rw [hfm]
        exact hxs ▸ List.mem_cons_self _ _
      rw [List.mem_filterMap] at hx
      obtain ⟨msg, hmem, hdec⟩ := hx
      rw [List.mem_filter] at hmem
      exact ⟨msg, hmem.1, hmem.2, hdec⟩
  · intro h
    unfold MprisSignals.next
    have hnil : incoming.filter (fun msg => senderMatches it.dbus_conn msg) = [] := by
      rw [List.filter_eq_nil_iff]
      intro msg hmsg
      simp [h msg hmsg]
    rw [hnil]
    rfl

/-- Witness for C4: a pull over a single message whose sender is a foreign
identity yields nothing, even though the message itself decodes to a
signal. -/
theorem c4_sender_filter_witness :
    MprisSignals.next ⟨⟨"org.mpris.MediaPlayer2.vlc", ":1.5", 1000⟩, 100⟩
      [{ msgType := .signal, sender := some ":1.99",
         path := some "/org/mpris/MediaPlayer2",
         interface := some "org.mpris.MediaPlayer2.Player", member := some "Seeked",
         body := [.int64 1234] }] = none :=
  (c4_sender_filter ⟨⟨"org.mpris.MediaPlayer2.vlc", ":1.5", 1000⟩, 100⟩
    [{ msgType := .signal, sender := some ":1.99",
       path := some "/org/mpris/MediaPlayer2",
       interface := some "org.mpris.MediaPlayer2.Player", member := some "Seeked",
       body := [.int64 1234] }] (.Seeked 1234)).2 (by decide)

/-- Witness for the amended C8 at concrete casings: a mixed-case `PLayIng`
parses as `Playing`, an upper-case ASCII `TRACK` as `Track`, and the ASCII
protocol hint `forward-seek` (no casing of any tag) fails with
`TypeBuildError`. -/
theorem c8_amended_status_parse_case_witness :
    PlaybackStatus.from_str "PLayIng" = .ok .Playing ∧
    LoopStatus.from_str "TRACK" = .ok .Track ∧
    PlaybackStatus.from_str "forward-seek" =
      .error (.TypeBuildError "PlaybackStatus" "forward-seek") :=
  ⟨(c8_amended_status_parse_case "PLayIng").1 (by decide),
   (c8_amended_status_parse_case "TRACK").2.2.2.2.2.1 (by decide),
   (c8_amended_status_parse_case "forward-seek").2.2.2.1 (by decide) (by decide) (by decide)
     (by decide)⟩

end Mpris
